import Mathlib

/-!
Shallow embedding of the PDF-grounded chatbot service (app.py, utils.py,
global_constants.py, exception.py).

The service keeps a single in-memory slot `_pdf_text : Optional[str]` and
exposes two stateful handlers:
  * `upload_pdf` (POST /upload-pdf): type-validates the uploaded file,
    extracts text via PyPDF2, applies an emptiness gate and a token-size
    gate, and on success overwrites the slot;
  * `ask` (POST /ask): validates the question, requires a loaded document,
    builds a grounded prompt, requires the GROQ_API_KEY credential, calls
    the LLM collaborator and shapes the answer.

External collaborators (PyPDF2, the Groq chat API) are modelled as oracles:
`PdfReadOutcome` is what the PDF reader does with the uploaded stream, and
`LLMOutcome` is what the chat-completion call does.  Python strings are
Lean `String`s, `str.strip()` is `pyStrip` (dropping whitespace characters
from both ends), Python `//` on non-negative ints is `Nat` division, and
Python truthiness of `str` / `Optional[str]` is equality tests against `""`
and `Option.getD "" · = ""`.
-/

namespace PdfChatbot

/-- MAX_CONTEXT_TOKENS constant (app.py line 16, default "8000"). -/
def MAX_CONTEXT_TOKENS : Nat := 8000

/-- CHARS_PER_TOKEN constant (utils.py line 8, default "4"). -/
def CHARS_PER_TOKEN : Nat := 4

/-- ErrorMessage.ONLY_PDF_SUPPORTED (global_constants.py). -/
def ONLY_PDF_SUPPORTED : String := "Only PDF files are supported."

/-- ErrorMessage.PDF_PROCESSING_FAILED (global_constants.py). -/
def PDF_PROCESSING_FAILED : String := "Could not process this PDF. Please try another file."

/-- ErrorMessage.PDF_TOO_LARGE (global_constants.py). -/
def PDF_TOO_LARGE : String := "PDF too large, please shorten or split."

/-- ErrorMessage.PDF_NOT_UPLOADED (global_constants.py). -/
def PDF_NOT_UPLOADED : String := "Please upload a PDF first."

/-- ErrorMessage.QUESTION_REQUIRED (global_constants.py). -/
def QUESTION_REQUIRED : String := "Question must be provided."

/-- ErrorMessage.SERVER_MISCONFIGURED (global_constants.py). -/
def SERVER_MISCONFIGURED : String := "Server configuration error: missing GROQ_API_KEY."

/-- ErrorMessage.ANSWER_GENERATION_FAILED (global_constants.py). -/
def ANSWER_GENERATION_FAILED : String := "We’re having trouble generating an answer. Please try again."

/-- Python `str.strip()`: remove whitespace from both ends of the string. -/
def pyStrip (s : String) : String :=
  ⟨((s.data.dropWhile Char.isWhitespace).reverse.dropWhile Char.isWhitespace).reverse⟩

/-- Python `str.lower()`: lower-case each character. -/
def pyLower (s : String) : String :=
  ⟨s.data.map Char.toLower⟩

/-- Python `s.endswith(t)`: `t` is a suffix of `s`. -/
def pyEndsWith (s t : String) : Bool :=
  t.data.isSuffixOf s.data

/-- utils.py `_estimate_tokens`: `max(1, len(text) // CHARS_PER_TOKEN)`.
Python `//` on non-negative integers is `Nat` floor division. -/
def _estimate_tokens (text : String) : Nat :=
  max 1 (text.length / CHARS_PER_TOKEN)

/-- The two request attributes of a present multipart upload that
upload_pdf reads: `file.filename` and `file.content_type`. -/
structure UploadFile where
  filename : String
  content_type : String
deriving DecidableEq

/-- Oracle for the external PyPDF2 collaborator: reading the stream either
raises (malformed input) or yields the per-page results of
`page.extract_text()`, each possibly `None`. -/
inductive PdfReadOutcome where
  | malformed
  | pages (pageTexts : List (Option String))
deriving DecidableEq

/-- utils.py `_extract_text_from_pdf`: join the per-page texts (None
replaced by "") with a blank-line separator and strip the result; a raised
PyPDF2 fault becomes HTTPException(422, PDF_PROCESSING_FAILED). -/
def _extract_text_from_pdf : PdfReadOutcome → Except (Nat × String) String
  | .malformed => .error (422, PDF_PROCESSING_FAILED)
  | .pages ts => .ok (pyStrip (String.intercalate "\n\n" (ts.map (fun t => t.getD ""))))

/-- A handler outcome: a 200 body payload, or an HTTPException carrying a
status code and a detail message. -/
inductive Response where
  | ok (statusCode : Nat) (payload : String)
  | error (statusCode : Nat) (detail : String)
deriving DecidableEq

/-- app.py `upload_pdf` handler, as a transformer of the `_pdf_text` slot.
Returns the response together with the new slot contents. -/
def upload_pdf (store : Option String) (file : Option UploadFile)
    (pdf : PdfReadOutcome) : Response × Option String :=
  match file with
  | none => (.error 400 ONLY_PDF_SUPPORTED, store)
  | some f =>
    if ¬ pyEndsWith (pyLower f.filename) ".pdf" ∧ f.content_type ≠ "application/pdf" then
      (.error 400 ONLY_PDF_SUPPORTED, store)
    else
      match _extract_text_from_pdf pdf with
      | .error e => (.error e.1 e.2, store)
      | .ok text =>
        if text = "" then
          (.error 422 PDF_PROCESSING_FAILED, store)
        else if _estimate_tokens text > MAX_CONTEXT_TOKENS then
          (.error 413 PDF_TOO_LARGE, store)
        else
          (.ok 200 "processed", some text)

/-- Oracle for the external Groq chat-completion collaborator: the call
either raises, or returns `response.choices[0].message.content`
(possibly None). -/
inductive LLMOutcome where
  | raises
  | returns (content : Option String)
deriving DecidableEq

/-- The chat-completion request `ask` builds (app.py lines 89-98). -/
structure ChatRequest where
  model : String
  system_message : String
  user_message : String
  temperature : Nat
  max_completion_tokens : Nat
  top_p : Nat
deriving DecidableEq

/-- The fixed system instruction string (app.py lines 65-69). -/
def system_instructions : String :=
  "You are a helpful assistant that answers ONLY using the provided DOCUMENT. If the DOCUMENT does not contain the answer, reply exactly: \x27The document does not contain that information.\x27 Keep answers concise."

/-- The grounded user prompt (app.py lines 71-76), with the source's
literal chunking of the template. -/
def ask_user_prompt (pdfText question : String) : String :=
  "[DOCUMENT]\n" ++ pdfText ++ "\n\n" ++
  "[QUESTION]\n" ++ pyStrip question ++ "\n\n" ++
  "[INSTRUCTIONS]\n- Only answer using DOCUMENT.\n" ++
  "- If unsure or not present, say it is not in the document."

/-- The environment `ask` consults: the GROQ_API_KEY environment variable
and the behaviour of the LLM collaborator for this call. -/
structure AskEnv where
  groq_api_key : Option String
  llm : LLMOutcome
deriving DecidableEq

/-- Observable outcome of one `ask` call: the HTTP response, the slot after
the call, and the chat request sent to the collaborator (none when the
handler failed before making the call). -/
structure AskResult where
  response : Response
  store : Option String
  sent : Option ChatRequest
deriving DecidableEq

/-- app.py `ask` handler.  Checks, in source order: falsy/blank question
(400); falsy `_pdf_text` slot (409); falsy GROQ_API_KEY (500); then calls
the collaborator, trims its text, substitutes the fallback sentence when
the trimmed text is empty, and maps any raised exception to a generic 500. -/
def ask (store : Option String) (question : String) (env : AskEnv) : AskResult :=
  if question = "" ∨ pyStrip question = "" then
    ⟨.error 400 QUESTION_REQUIRED, store, none⟩
  else if store.getD "" = "" then
    ⟨.error 409 PDF_NOT_UPLOADED, store, none⟩
  else
    let prompt := ask_user_prompt (store.getD "") question
    if env.groq_api_key.getD "" = "" then
      ⟨.error 500 SERVER_MISCONFIGURED, store, none⟩
    else
      let req : ChatRequest :=
        ⟨"llama-3.1-8b-instant", system_instructions, prompt, 0, MAX_CONTEXT_TOKENS, 1⟩
      match env.llm with
      | .raises => ⟨.error 500 ANSWER_GENERATION_FAILED, store, some req⟩
      | .returns content =>
        let answer := pyStrip (content.getD "")
        let answer :=
          if answer = "" then "The document does not contain that information." else answer
        ⟨.ok 200 answer, store, some req⟩

/-- One client operation against the service. -/
inductive Op where
  | upload (file : Option UploadFile) (pdf : PdfReadOutcome)
  | query (question : String) (env : AskEnv)

/-- Effect of one operation on the `_pdf_text` slot. -/
def step (store : Option String) : Op → Option String
  | .upload f pdf => (upload_pdf store f pdf).2
  | .query q env => (ask store q env).store

/-- Slot contents after a sequence of operations from a fresh process
(`_pdf_text = None`). -/
def run (ops : List Op) : Option String :=
  ops.foldl step none

/-- The invariant maintained by the `_pdf_text` slot: any stored text is
non-blank after stripping and fits the token ceiling. -/
def StoreOK (store : Option String) : Prop :=
  ∀ t, store = some t → pyStrip t ≠ "" ∧ _estimate_tokens t ≤ MAX_CONTEXT_TOKENS

/-! ### Helper lemmas about `pyStrip` -/

/-- A character that fails the predicate survives `dropWhile`. -/
theorem mem_dropWhile_of_not {α : Type} (p : α → Bool) (c : α) (hc : p c = false) :
    ∀ (l : List α), c ∈ l → c ∈ l.dropWhile p := by
  intro l
  induction l with
  | nil => intro h; exact absurd h (List.not_mem_nil c)
  | cons a as ih =>
    intro h
    by_cases ha : p a = true
    · rw [List.dropWhile_cons_of_pos ha]
      rcases List.mem_cons.mp h with he | hm
      · rw [he] at hc; rw [ha] at hc; exact absurd hc (by simp)
      · exact ih hm
    · rw [List.dropWhile_cons_of_neg ha]
      exact h

/-- A non-empty stripped string contains a non-whitespace character. -/
theorem pyStrip_has_solid_char (s : String) (h : pyStrip s ≠ "") :
    ∃ c ∈ (pyStrip s).data, c.isWhitespace = false := by
  by_cases hB : (s.data.dropWhile Char.isWhitespace).reverse.dropWhile Char.isWhitespace = []
  · exact absurd (show pyStrip s = "" by unfold pyStrip; rw [hB]; rfl) h
  · refine ⟨((s.data.dropWhile Char.isWhitespace).reverse.dropWhile Char.isWhitespace).head hB,
      ?_, ?_⟩
    · show _ ∈ ((s.data.dropWhile Char.isWhitespace).reverse.dropWhile Char.isWhitespace).reverse
      exact List.mem_reverse.mpr (List.head_mem hB)
    · exact List.head_dropWhile_not Char.isWhitespace _ hB

/-- A string containing a non-whitespace character strips to a non-empty
string. -/
theorem pyStrip_ne_empty (s : String) (c : Char) (hc : c ∈ s.data)
    (hw : c.isWhitespace = false) : pyStrip s ≠ "" := by
  intro hs
  have hrev : ((s.data.dropWhile Char.isWhitespace).reverse.dropWhile Char.isWhitespace).reverse
      = [] := congrArg String.data hs
  have hB : (s.data.dropWhile Char.isWhitespace).reverse.dropWhile Char.isWhitespace = [] := by
    simpa using congrArg List.reverse hrev
  have hall := List.dropWhile_eq_nil_iff.mp hB
  have hcA : c ∈ s.data.dropWhile Char.isWhitespace :=
    mem_dropWhile_of_not Char.isWhitespace c hw s.data hc
  have hwc := hall c (List.mem_reverse.mpr hcA)
  rw [hw] at hwc
  exact absurd hwc (by simp)

/-- Stripping an already-stripped non-blank string keeps it non-blank. -/
theorem pyStrip_idem_ne (s : String) (h : pyStrip s ≠ "") : pyStrip (pyStrip s) ≠ "" := by
  obtain ⟨c, hc, hw⟩ := pyStrip_has_solid_char s h
  exact pyStrip_ne_empty (pyStrip s) c hc hw

/-! ### Store invariant machinery -/

/-- The `ask` handler never writes the `_pdf_text` slot. -/
theorem ask_store_eq (store : Option String) (q : String) (env : AskEnv) :
    (ask store q env).store = store := by
  unfold ask
  split
  · rfl
  · split
    · rfl
    · split
      · rfl
      · cases env.llm <;> rfl

/-- The `upload_pdf` handler either leaves the slot alone or stores a
stripped text that passed the emptiness and size gates. -/
theorem upload_pdf_store (store : Option String) (file : Option UploadFile)
    (pdf : PdfReadOutcome) :
    (upload_pdf store file pdf).2 = store ∨
      ∃ raw : String, (upload_pdf store file pdf).2 = some (pyStrip raw) ∧
        pyStrip raw ≠ "" ∧ _estimate_tokens (pyStrip raw) ≤ MAX_CONTEXT_TOKENS := by
  cases file with
  | none => left; rfl
  | some f =>
    simp only [upload_pdf]
    split
    · left; rfl
    · cases pdf with
      | malformed => left; rfl
      | pages ts =>
        simp only [_extract_text_from_pdf]
        split
        · left; rfl
        · next hne =>
          split
          · left; rfl
          · next hsize =>
            right
            refine ⟨String.intercalate "\n\n" (ts.map fun t => t.getD ""), rfl, hne, ?_⟩
            exact Nat.le_of_not_lt hsize

/-- One operation preserves the store invariant. -/
theorem step_ok (store : Option String) (op : Op) (h : StoreOK store) :
    StoreOK (step store op) := by
  cases op with
  | query q env =>
    intro t ht
    rw [show step store (.query q env) = (ask store q env).store from rfl,
      ask_store_eq] at ht
    exact h t ht
  | upload f pdf =>
    intro t ht
    rw [show step store (.upload f pdf) = (upload_pdf store f pdf).2 from rfl] at ht
    rcases upload_pdf_store store f pdf with heq | ⟨raw, heq, hne, hle⟩
    · rw [heq] at ht
      exact h t ht
    · rw [heq] at ht
      cases ht
      exact ⟨pyStrip_idem_ne raw hne, hle⟩

/-- The invariant holds after any foldl over operations. -/
theorem foldl_ok (ops : List Op) :
    ∀ store, StoreOK store → StoreOK (ops.foldl step store) := by
  induction ops with
  | nil => intro store h; exact h
  | cons op ops ih =>
    intro store h
    exact ih _ (step_ok store op h)

/-- The invariant holds after any operation sequence from a fresh process. -/
theorem run_ok (ops : List Op) : StoreOK (run ops) := by
  apply foldl_ok
  intro t ht
  exact absurd ht (by simp)

/-- The OR'd type-validation check does not reject when either signal
(extension or MIME type) passes. -/
theorem type_check_passes (f : UploadFile)
    (hty : pyEndsWith (pyLower f.filename) ".pdf" = true ∨ f.content_type = "application/pdf") :
    ¬(¬ pyEndsWith (pyLower f.filename) ".pdf" = true ∧ f.content_type ≠ "application/pdf") := by
  rcases hty with h | h
  · exact fun hc => hc.1 h
  · exact fun hc => hc.2 h

/-- The source's chunking of the prompt template equals the flat template
of spec section 4.3. -/
theorem ask_user_prompt_flat (D q : String) :
    ask_user_prompt D q =
      "[DOCUMENT]\n" ++ D ++ "\n\n[QUESTION]\n" ++ pyStrip q ++
        "\n\n[INSTRUCTIONS]\n- Only answer using DOCUMENT.\n- If unsure or not present, say it is not in the document." := by
  have h1 : ("\n\n[QUESTION]\n" : String) = "\n\n" ++ "[QUESTION]\n" := rfl
  have h2 : ("\n\n[INSTRUCTIONS]\n- Only answer using DOCUMENT.\n- If unsure or not present, say it is not in the document." : String)
      = "\n\n" ++ ("[INSTRUCTIONS]\n- Only answer using DOCUMENT.\n"
        ++ "- If unsure or not present, say it is not in the document.") := rfl
  rw [h1, h2]
  simp only [ask_user_prompt, String.append_assoc]

/-- A valid (non-blank-stripping) question is in particular non-empty. -/
theorem question_ne_empty (question : String) (hq : pyStrip question ≠ "") :
    question ≠ "" :=
  fun h => hq (by rw [h]; rfl)

/-! ### Claim theorems -/

/-- C1, counterexample: with GROQ_API_KEY unset, a valid question and no
document loaded, `ask` returns 409 NoDocumentLoaded, not 500
ServerMisconfigured — the document-store precondition runs before the
credential check, so the outcome is not independent of the store. -/
theorem C1_counterexample :
    (ask none "What is the capital of France?" ⟨none, .raises⟩).response
        = .error 409 PDF_NOT_UPLOADED ∧
      (ask none "What is the capital of France?" ⟨none, .raises⟩).response
        ≠ .error 500 SERVER_MISCONFIGURED := by
  decide

/-- C1 (amended): for every ask call made while the GROQ_API_KEY credential
is unset (or empty), given a valid question AND a document loaded in the
Document Store, the result is the ServerMisconfigured error (HTTP 500);
with no document loaded the call fails earlier with NoDocumentLoaded. -/
theorem C1_misconfigured (store : Option String) (question : String) (env : AskEnv)
    (hq : pyStrip question ≠ "") (hdoc : store.getD "" ≠ "")
    (hkey : env.groq_api_key.getD "" = "") :
    (ask store question env).response = .error 500 SERVER_MISCONFIGURED := by
  have hq0 : question ≠ "" := question_ne_empty question hq
  simp [ask, hq0, hq, hdoc, hkey]

/-- C1 witness: concrete misconfigured call with a loaded document. -/
theorem C1_misconfigured_witness :
    pyStrip "What is this?" ≠ "" ∧ (some "doc" : Option String).getD "" ≠ "" ∧
      (AskEnv.mk none .raises).groq_api_key.getD "" = "" ∧
      (ask (some "doc") "What is this?" ⟨none, .raises⟩).response
        = .error 500 SERVER_MISCONFIGURED :=
  ⟨by decide, by decide, by decide,
    C1_misconfigured (some "doc") "What is this?" ⟨none, .raises⟩
      (by decide) (by decide) (by decide)⟩

/-- C2: for every extracted text that passed the earlier gates, the token
estimate is `max(1, character_count / CHARS_PER_TOKEN)` (integer floor
division, made at least 1); when the estimate exceeds MAX_CONTEXT_TOKENS
the ingest fails with DocumentTooLarge (HTTP 413) and the Document Store is
not written, and when it does not exceed the ceiling the size gate passes
and the text is stored. -/
theorem C2_size_gate (store : Option String) (f : UploadFile) (pdf : PdfReadOutcome)
    (text : String)
    (hty : pyEndsWith (pyLower f.filename) ".pdf" = true ∨ f.content_type = "application/pdf")
    (hext : _extract_text_from_pdf pdf = .ok text) (hne : text ≠ "") :
    _estimate_tokens text = max 1 (text.length / CHARS_PER_TOKEN) ∧
      (_estimate_tokens text > MAX_CONTEXT_TOKENS →
        upload_pdf store (some f) pdf = (.error 413 PDF_TOO_LARGE, store)) ∧
      (_estimate_tokens text ≤ MAX_CONTEXT_TOKENS →
        upload_pdf store (some f) pdf = (.ok 200 "processed", some text)) := by
  refine ⟨rfl, ?_, ?_⟩
  · intro hover
    simp only [upload_pdf, if_neg (type_check_passes f hty), hext]
    rw [if_neg hne, if_pos hover]
  · intro hunder
    simp only [upload_pdf, if_neg (type_check_passes f hty), hext]
    rw [if_neg hne, if_neg (Nat.not_lt.mpr hunder)]

/-- C2 witness: a concrete small document passes the size gate and is
stored. -/
theorem C2_size_gate_witness :
    (pyEndsWith (pyLower "a.pdf") ".pdf" = true ∨
        ("application/pdf" : String) = "application/pdf") ∧
      _extract_text_from_pdf (.pages [some "hi"]) = .ok "hi" ∧
      ("hi" : String) ≠ "" ∧
      (_estimate_tokens "hi" = max 1 (("hi" : String).length / CHARS_PER_TOKEN) ∧
        (_estimate_tokens "hi" > MAX_CONTEXT_TOKENS →
          upload_pdf (some "prior") (some ⟨"a.pdf", "application/pdf"⟩) (.pages [some "hi"])
            = (.error 413 PDF_TOO_LARGE, some "prior")) ∧
        (_estimate_tokens "hi" ≤ MAX_CONTEXT_TOKENS →
          upload_pdf (some "prior") (some ⟨"a.pdf", "application/pdf"⟩) (.pages [some "hi"])
            = (.ok 200 "processed", some "hi"))) :=
  ⟨by decide, by rfl, by decide,
    C2_size_gate (some "prior") ⟨"a.pdf", "application/pdf"⟩ (.pages [some "hi"]) "hi"
      (by decide) (by rfl) (by decide)⟩

/-- C3: ingesting a PDF whose extraction result strips to the empty string
fails with UnprocessableDocument (HTTP 422) and leaves the Document Store
exactly as it was before the call. -/
theorem C3_empty_extraction (store : Option String) (f : UploadFile) (pdf : PdfReadOutcome)
    (hty : pyEndsWith (pyLower f.filename) ".pdf" = true ∨ f.content_type = "application/pdf")
    (hext : _extract_text_from_pdf pdf = .ok "") :
    upload_pdf store (some f) pdf = (.error 422 PDF_PROCESSING_FAILED, store) := by
  simp only [upload_pdf, if_neg (type_check_passes f hty), hext]
  simp only [if_true]

/-- C3 witness: a whitespace-only extraction is rejected with 422 and the
previously stored document stays in place. -/
theorem C3_empty_extraction_witness :
    (pyEndsWith (pyLower "blank.pdf") ".pdf" = true ∨
        ("application/pdf" : String) = "application/pdf") ∧
      _extract_text_from_pdf (.pages [some "   ", none]) = .ok "" ∧
      upload_pdf (some "prior document") (some ⟨"blank.pdf", "application/pdf"⟩)
          (.pages [some "   ", none])
        = (.error 422 PDF_PROCESSING_FAILED, some "prior document") :=
  ⟨by decide, by rfl,
    C3_empty_extraction (some "prior document") ⟨"blank.pdf", "application/pdf"⟩
      (.pages [some "   ", none]) (by decide) (by rfl)⟩

/-- C4: for every stored document text D and every valid question Q, the
user prompt of the chat request sent to the LLM collaborator is exactly
"[DOCUMENT]\n" ++ D ++ "\n\n[QUESTION]\n" ++ trim(Q) ++
"\n\n[INSTRUCTIONS]\n- Only answer using DOCUMENT.\n- If unsure or not
present, say it is not in the document." — the flat template of spec
section 4.3. -/
theorem C4_prompt (D question : String) (env : AskEnv)
    (hD : D ≠ "") (hq : pyStrip question ≠ "")
    (hkey : env.groq_api_key.getD "" ≠ "") :
    ∃ req : ChatRequest, (ask (some D) question env).sent = some req ∧
      req.user_message =
        "[DOCUMENT]\n" ++ D ++ "\n\n[QUESTION]\n" ++ pyStrip question ++
          "\n\n[INSTRUCTIONS]\n- Only answer using DOCUMENT.\n- If unsure or not present, say it is not in the document." := by
  have hq0 : question ≠ "" := question_ne_empty question hq
  have hsent : (ask (some D) question env).sent
      = some ⟨"llama-3.1-8b-instant", system_instructions,
          ask_user_prompt D question, 0, MAX_CONTEXT_TOKENS, 1⟩ := by
    cases henv : env.llm with
    | raises => simp [ask, hq0, hq, hD, hkey, henv]
    | returns content => simp [ask, hq0, hq, hD, hkey, henv]
  exact ⟨_, hsent, ask_user_prompt_flat D question⟩

/-- C4 witness: concrete document and question produce the exact template. -/
theorem C4_prompt_witness :
    ("Paris is the capital of France." : String) ≠ "" ∧
      pyStrip " What is the capital of France? " ≠ "" ∧
      (AskEnv.mk (some "key") (.returns (some "Paris"))).groq_api_key.getD "" ≠ "" ∧
      (∃ req : ChatRequest,
        (ask (some "Paris is the capital of France.") " What is the capital of France? "
            ⟨some "key", .returns (some "Paris")⟩).sent = some req ∧
        req.user_message =
          "[DOCUMENT]\n" ++ "Paris is the capital of France." ++ "\n\n[QUESTION]\n" ++
            pyStrip " What is the capital of France? " ++
            "\n\n[INSTRUCTIONS]\n- Only answer using DOCUMENT.\n- If unsure or not present, say it is not in the document.") :=
  ⟨by decide, by decide, by decide,
    C4_prompt "Paris is the capital of France." " What is the capital of France? "
      ⟨some "key", .returns (some "Paris")⟩ (by decide) (by decide) (by decide)⟩

/-- C5: for every sequence of ingest and ask operations starting from the
empty store, any stored text is non-empty after trimming whitespace. -/
theorem C5_nonblank_invariant (ops : List Op) (t : String) (h : run ops = some t) :
    pyStrip t ≠ "" :=
  (run_ok ops t h).1

/-- C5 witness: a successful upload stores a text that strips non-empty. -/
theorem C5_nonblank_invariant_witness :
    run [Op.upload (some ⟨"a.pdf", "application/pdf"⟩) (.pages [some "hello"])]
        = some "hello" ∧
      pyStrip "hello" ≠ "" :=
  ⟨by decide,
    C5_nonblank_invariant
      [Op.upload (some ⟨"a.pdf", "application/pdf"⟩) (.pages [some "hello"])]
      "hello" (by decide)⟩

/-- The pipeline after a passed type check never yields the 400
InvalidFileType response. -/
theorem upload_some_400_iff (store : Option String) (f : UploadFile)
    (pdf : PdfReadOutcome) :
    (upload_pdf store (some f) pdf).1 = .error 400 ONLY_PDF_SUPPORTED ↔
      ¬ pyEndsWith (pyLower f.filename) ".pdf" = true ∧ f.content_type ≠ "application/pdf" := by
  by_cases hcond :
      ¬ pyEndsWith (pyLower f.filename) ".pdf" = true ∧ f.content_type ≠ "application/pdf"
  · simp [upload_pdf, if_pos hcond, hcond]
  · simp only [upload_pdf, if_neg hcond, hcond, iff_false]
    cases pdf with
    | malformed => simp [_extract_text_from_pdf]
    | pages ts =>
      simp only [_extract_text_from_pdf]
      repeat' split
      all_goals simp_all

/-- C6: ingest fails with InvalidFileType (HTTP 400) if and only if the
file object is absent, or the filename does not end in ".pdf"
case-insensitively and the declared content type is not
"application/pdf"; either signal alone passes the type validation. -/
theorem C6_type_validation (store : Option String) (file : Option UploadFile)
    (pdf : PdfReadOutcome) :
    (upload_pdf store file pdf).1 = .error 400 ONLY_PDF_SUPPORTED ↔
      file = none ∨ ∃ f, file = some f ∧
        pyEndsWith (pyLower f.filename) ".pdf" = false ∧
        f.content_type ≠ "application/pdf" := by
  cases file with
  | none => simp [upload_pdf]
  | some f =>
    rw [upload_some_400_iff]
    simp

/-- C7: for every Document Store state, asking a question that is empty or
strips to the empty string fails with InvalidQuestion (HTTP 400); this
check precedes every other failure mode of ask. -/
theorem C7_question_gate (store : Option String) (question : String) (env : AskEnv)
    (h : question = "" ∨ pyStrip question = "") :
    (ask store question env).response = .error 400 QUESTION_REQUIRED := by
  unfold ask
  rw [if_pos h]

/-- C7 witness: a whitespace-only question is rejected even with a loaded
document, a configured key and a healthy collaborator. -/
theorem C7_question_gate_witness :
    (("   " : String) = "" ∨ pyStrip "   " = "") ∧
      (ask (some "doc") "   " ⟨some "key", .returns (some "yes")⟩).response
        = .error 400 QUESTION_REQUIRED :=
  ⟨by decide,
    C7_question_gate (some "doc") "   " ⟨some "key", .returns (some "yes")⟩ (by decide)⟩

/-- C8: whenever the ask call reaches the LLM collaborator and the
collaborator returns, the answer is the collaborator's text trimmed of
leading and trailing whitespace, with the exact fallback sentence "The
document does not contain that information." substituted when the returned
text is null, empty or whitespace-only. -/
theorem C8_answer_shaping (store : Option String) (question key : String)
    (content : Option String) (hq : pyStrip question ≠ "")
    (hdoc : store.getD "" ≠ "") (hkey : key ≠ "") :
    (ask store question ⟨some key, .returns content⟩).response =
      .ok 200 (if pyStrip (content.getD "") = ""
        then "The document does not contain that information."
        else pyStrip (content.getD "")) := by
  have hq0 : question ≠ "" := question_ne_empty question hq
  simp [ask, hq0, hq, hdoc, hkey]

/-- C8 witness: a padded collaborator answer is trimmed; the hypotheses
hold at a concrete loaded store, question and key. -/
theorem C8_answer_shaping_witness :
    pyStrip "What is it?" ≠ "" ∧ (some "doc" : Option String).getD "" ≠ "" ∧
      ("key" : String) ≠ "" ∧
      (ask (some "doc") "What is it?"
          ⟨some "key", .returns (some "  The capital is Paris.  ")⟩).response =
        .ok 200 (if pyStrip ((some "  The capital is Paris.  " : Option String).getD "") = ""
          then "The document does not contain that information."
          else pyStrip ((some "  The capital is Paris.  " : Option String).getD "")) :=
  ⟨by decide, by decide, by decide,
    C8_answer_shaping (some "doc") "What is it?" "key" (some "  The capital is Paris.  ")
      (by decide) (by decide) (by decide)⟩

/-- C9: the ask operation never writes the single document slot — for
every store state, question and environment, the stored text after the
call equals the stored text before it. -/
theorem C9_ask_frame (store : Option String) (question : String) (env : AskEnv) :
    (ask store question env).store = store :=
  ask_store_eq store question env

/-- C10: for every sequence of ingest and ask operations starting from the
empty store, any stored text has a token estimate of at most
MAX_CONTEXT_TOKENS. -/
theorem C10_token_ceiling_invariant (ops : List Op) (t : String)
    (h : run ops = some t) :
    _estimate_tokens t ≤ MAX_CONTEXT_TOKENS :=
  (run_ok ops t h).2

/-- C10 witness: a stored small document respects the ceiling. -/
theorem C10_token_ceiling_invariant_witness :
    run [Op.upload (some ⟨"b.pdf", "application/pdf"⟩) (.pages [some "world"])]
        = some "world" ∧
      _estimate_tokens "world" ≤ MAX_CONTEXT_TOKENS :=
  ⟨by decide,
    C10_token_ceiling_invariant
      [Op.upload (some ⟨"b.pdf", "application/pdf"⟩) (.pages [some "world"])]
      "world" (by decide)⟩

end PdfChatbot
